import Mathlib

/-!
# SteadyGig backend — shallow embedding and verification

This file embeds the booking-lifecycle, payment-reconciliation, subscription
and review logic of the SteadyGig backend (`src/backend/src/controllers/*.ts`)
as executable Lean definitions, and proves the specification claims about them.

Modelling conventions:
* Database primary keys are `TEXT` (cuid) in the schema; they are modelled as
  `Nat`, which only uses that they are opaque, decidably-equal unique keys.
* JavaScript numbers (`DOUBLE PRECISION` columns: rates, amounts, averageRating)
  are modelled as `ℚ` (idealised exact arithmetic).  `rating` is `INTEGER` and
  modelled as `Int`.
* A Prisma table is a `List` of rows; `findFirst`/`findUnique` is `List.find?`,
  `update (where unique key)` maps a key-preserving function over the list,
  `create` conses a fresh row, `delete (where unique key)` filters the key out.
* Each Express handler becomes a pure function from the store (plus its request
  arguments and the responses of external collaborators) to a response and an
  updated store.  A response is `Except (Nat × String) α`: an error response
  `sendErrorResponse res code msg` becomes `.error (code, msg)`, a success
  response becomes `.ok` of the returned payload.
* The Paystack gateway (`src/backend/src/utils/paystack.ts`) is an external
  collaborator; its possible answers are reified as inductive types and passed
  to the handler as an argument.  The number of gateway invocations a handler
  performs is returned explicitly where a claim is about it.
-/

namespace SteadyGig

/-- `http-status-codes` constants used by the controllers. -/
def OK : Nat := 200
def CREATED : Nat := 201
def BAD_REQUEST : Nat := 400
def NOT_FOUND : Nat := 404
def INTERNAL_SERVER_ERROR : Nat := 500

/-- `UserRole` enum from the Prisma schema. -/
inductive Role
  | CLIENT
  | MUSICIAN
  | ADMIN
  deriving DecidableEq, Repr

/-- `BookingStatus` enum from the Prisma schema. -/
inductive BookingStatus
  | PENDING
  | ACCEPTED
  | REJECTED
  | COMPLETED
  | CANCELLED
  deriving DecidableEq, Repr

/-- `SubscriptionStatus` enum from the Prisma schema. -/
inductive SubStatus
  | ACTIVE
  | EXPIRED
  | CANCELLED
  | TRIAL
  deriving DecidableEq, Repr

/-- The three `paymentStatus` strings the payment controller ever writes
(`"pending"`, `"successful"`, `"failed"`; the column is `TEXT`). -/
inductive PaymentStatus
  | pending
  | successful
  | failed
  deriving DecidableEq, Repr

/-- `users` row (fields relevant to the verified handlers). -/
structure User where
  id : Nat
  role : Role
  deriving DecidableEq, Repr

/-- `musician_profiles` row (fields relevant to the verified handlers). -/
structure MusicianProfile where
  id : Nat
  userId : Nat
  isAvailable : Bool
  totalGigs : Nat
  averageRating : ℚ
  deriving DecidableEq, Repr

/-- `bookings` row.  The inert descriptive columns (eventDate, venue, address,
city, state, latitude, longitude, duration, description, instruments) carry no
control flow in any verified handler and are elided. -/
structure Booking where
  id : Nat
  clientId : Nat
  musicianId : Nat
  eventName : String
  offeredRate : ℚ
  agreedRate : Option ℚ
  status : BookingStatus
  deriving DecidableEq, Repr

/-- The slice of Paystack's verify payload the controller reads
(`verificationResult.data`). -/
structure PaystackData where
  status : String
  paid_at : String
  channel : String
  fees : ℚ
  deriving DecidableEq, Repr

/-- `payments` row.  The JSONB `metadata` column is modelled by its two parts
the controllers ever read back or rewrite: the access code stored at
initiation and the `paystackData` object merged in by `verifyPayment`. -/
structure Payment where
  id : Nat
  userId : Nat
  bookingId : Option Nat
  amount : ℚ
  currency : String
  transactionRef : String
  paymentStatus : PaymentStatus
  accessCode : Option String
  gatewayData : Option PaystackData
  deriving DecidableEq, Repr

/-- `subscriptions` row (fields relevant to `renewSubscription`);
`startDate`/`endDate` are timestamps, modelled as `Int` milliseconds. -/
structure Subscription where
  id : Nat
  musicianProfileId : Nat
  status : SubStatus
  startDate : Int
  endDate : Int
  paymentId : Option Nat
  deriving DecidableEq, Repr

/-- `reviews` row (fields relevant to `deleteReview`). -/
structure Review where
  id : Nat
  bookingId : Nat
  reviewerId : Nat
  rating : Int
  deriving DecidableEq, Repr

/-- `notifications` row (the fields every handler writes). -/
structure Notification where
  userId : Nat
  title : String
  message : String
  type : String
  deriving DecidableEq, Repr

/-- The persistence collaborator: one list per table, plus fresh-id counters
standing for the store's id generation. -/
structure Store where
  users : List User
  profiles : List MusicianProfile
  bookings : List Booking
  payments : List Payment
  subscriptions : List Subscription
  reviews : List Review
  notifications : List Notification
  nextBookingId : Nat
  nextPaymentId : Nat
  deriving DecidableEq, Repr

/-- JavaScript truthiness of a nullable number: `null`/`undefined` and `0` are
falsy, every other number is truthy. -/
def jsTruthyOpt : Option ℚ → Bool
  | none => false
  | some x => decide (x ≠ 0)

/-- JavaScript `a || b` where `a` is a nullable number and `b` a number
(`agreedRate || booking.offeredRate` in `acceptBooking`). -/
def jsOr (a : Option ℚ) (b : ℚ) : ℚ :=
  match a with
  | none => b
  | some x => if x = 0 then b else x

/-- JavaScript `a || b` on strings: the empty string is falsy
(`paystackResponse.error || "Failed to initialize payment"`). -/
def jsOrStr (a b : String) : String :=
  if a = "" then b else a

/-- Prisma `update (where id)` on the bookings table. -/
def updateBookingById (bs : List Booking) (i : Nat) (f : Booking → Booking) :
    List Booking :=
  bs.map (fun b => if b.id == i then f b else b)

/-- A handler response: `sendErrorResponse` with (status code, message), or a
success payload. -/
abbrev Response (α : Type) := Except (Nat × String) α

/-! ## Booking Lifecycle Manager (`booking.controller.ts`) -/

/-- `createBooking`: checks the target user exists with role MUSICIAN and an
available profile, then inserts a PENDING booking (schema default status,
`agreedRate` not set) and a notification for the musician. -/
def createBooking (st : Store) (clientId musicianId : Nat) (eventName : String)
    (offeredRate : ℚ) : Response Booking × Store :=
  match st.users.find? (fun u => u.id == musicianId) with
  | none => (.error (BAD_REQUEST, "Invalid musician ID."), st)
  | some musician =>
    if musician.role ≠ Role.MUSICIAN then
      (.error (BAD_REQUEST, "Invalid musician ID."), st)
    else
      match st.profiles.find? (fun p => p.userId == musicianId) with
      | none => (.error (BAD_REQUEST, "Musician is not available."), st)
      | some profile =>
        if profile.isAvailable = false then
          (.error (BAD_REQUEST, "Musician is not available."), st)
        else
          let booking : Booking :=
            { id := st.nextBookingId
              clientId := clientId
              musicianId := musicianId
              eventName := eventName
              offeredRate := offeredRate
              agreedRate := none
              status := BookingStatus.PENDING }
          let notif : Notification :=
            { userId := musicianId
              title := "New Booking Request"
              message := "You have a new booking request for " ++ eventName
              type := "booking_request" }
          (.ok booking,
            { st with
                bookings := booking :: st.bookings
                notifications := notif :: st.notifications
                nextBookingId := st.nextBookingId + 1 })

/-- `acceptBooking`: only the target musician, only while PENDING; sets
status ACCEPTED and `agreedRate := agreedRate || booking.offeredRate`. -/
def acceptBooking (st : Store) (userId i : Nat) (agreedRate : Option ℚ) :
    Response Booking × Store :=
  match st.bookings.find? (fun b =>
      b.id == i && b.musicianId == userId && decide (b.status = BookingStatus.PENDING)) with
  | none => (.error (NOT_FOUND, "Booking not found or already processed."), st)
  | some booking =>
    let upd : Booking → Booking := fun b =>
      { b with
          status := BookingStatus.ACCEPTED
          agreedRate := some (jsOr agreedRate booking.offeredRate) }
    let notif : Notification :=
      { userId := booking.clientId
        title := "Booking Accepted"
        message := "Your booking for " ++ booking.eventName ++ " has been accepted"
        type := "booking_accepted" }
    (.ok (upd booking),
      { st with
          bookings := updateBookingById st.bookings i upd
          notifications := notif :: st.notifications })

/-- `rejectBooking`: only the target musician, only while PENDING; sets
status REJECTED. -/
def rejectBooking (st : Store) (userId i : Nat) : Response Booking × Store :=
  match st.bookings.find? (fun b =>
      b.id == i && b.musicianId == userId && decide (b.status = BookingStatus.PENDING)) with
  | none => (.error (NOT_FOUND, "Booking not found or already processed."), st)
  | some booking =>
    let upd : Booking → Booking := fun b => { b with status := BookingStatus.REJECTED }
    let notif : Notification :=
      { userId := booking.clientId
        title := "Booking Rejected"
        message := "Your booking for " ++ booking.eventName ++ " has been rejected"
        type := "booking_rejected" }
    (.ok (upd booking),
      { st with
          bookings := updateBookingById st.bookings i upd
          notifications := notif :: st.notifications })

/-- `cancelBooking`: either party, only while PENDING or ACCEPTED; sets
status CANCELLED and notifies the counterparty. -/
def cancelBooking (st : Store) (userId i : Nat) : Response Booking × Store :=
  match st.bookings.find? (fun b =>
      b.id == i && (b.clientId == userId || b.musicianId == userId) &&
        (decide (b.status = BookingStatus.PENDING) ||
         decide (b.status = BookingStatus.ACCEPTED))) with
  | none => (.error (NOT_FOUND, "Booking not found or cannot be cancelled."), st)
  | some booking =>
    let upd : Booking → Booking := fun b => { b with status := BookingStatus.CANCELLED }
    let notifyUserId := if booking.clientId == userId then booking.musicianId else booking.clientId
    let notif : Notification :=
      { userId := notifyUserId
        title := "Booking Cancelled"
        message := "The booking for " ++ booking.eventName ++ " has been cancelled"
        type := "booking_cancelled" }
    (.ok (upd booking),
      { st with
          bookings := updateBookingById st.bookings i upd
          notifications := notif :: st.notifications })

/-- `completeBooking`: either party, only while ACCEPTED; sets status
COMPLETED, increments the musician's `totalGigs` by one, notifies the
counterparty. -/
def completeBooking (st : Store) (userId i : Nat) : Response Booking × Store :=
  match st.bookings.find? (fun b =>
      b.id == i && (b.clientId == userId || b.musicianId == userId) &&
        decide (b.status = BookingStatus.ACCEPTED)) with
  | none => (.error (NOT_FOUND, "Booking not found or cannot be completed."), st)
  | some booking =>
    let upd : Booking → Booking := fun b => { b with status := BookingStatus.COMPLETED }
    let otherUserId := if booking.clientId == userId then booking.musicianId else booking.clientId
    let notif : Notification :=
      { userId := otherUserId
        title := "Booking Completed"
        message := "The booking for " ++ booking.eventName ++ " has been marked as completed"
        type := "booking_completed" }
    (.ok (upd booking),
      { st with
          bookings := updateBookingById st.bookings i upd
          profiles := st.profiles.map (fun p =>
            if p.userId == booking.musicianId then { p with totalGigs := p.totalGigs + 1 } else p)
          notifications := notif :: st.notifications })

/-! ## Payment Reconciliation Flow (`payment.controller.ts`) -/

/-- Outcome of `paystackService.verifyPayment(reference)` as seen by the
controller: `unreachable` is the `null` return (the HTTP call to the gateway
threw), `answered status data` is a gateway response body. -/
inductive GatewayVerify
  | unreachable
  | answered (status : Bool) (data : PaystackData)
  deriving DecidableEq, Repr

/-- Outcome of `paystackService.initializePayment(...)` as seen by the
controller: `accepted` is `{success: true, authorizationUrl, accessCode}`,
`rejected` is `{success: false, error}`. -/
inductive GatewayInit
  | accepted (authorizationUrl accessCode : String)
  | rejected (error : String)
  deriving DecidableEq, Repr

/-- What a run of `verifyPayment` produces: the HTTP response, the updated
store, and how many times the gateway collaborator's verify operation was
invoked during the run. -/
structure VerifyResult where
  response : Response (String × Payment)
  store : Store
  gatewayCalls : Nat

/-- Prisma `update (where transactionRef)` on the payments table. -/
def updatePaymentByRef (ps : List Payment) (ref : String) (f : Payment → Payment) :
    List Payment :=
  ps.map (fun p => if p.transactionRef == ref then f p else p)

/-- `verifyPayment`: loads the payment by reference; short-circuits when it is
already successful; otherwise invokes the gateway once and reconciles the
reported outcome onto the row (marking it failed when the gateway call itself
fails or reports `status: false`), creating notifications only on success. -/
def verifyPayment (st : Store) (transactionRef : String) (gw : GatewayVerify) :
    VerifyResult :=
  match st.payments.find? (fun p => p.transactionRef == transactionRef) with
  | none => ⟨.error (NOT_FOUND, "Payment not found."), st, 0⟩
  | some payment =>
    if payment.paymentStatus = PaymentStatus.successful then
      ⟨.ok ("Payment already verified.", payment), st, 0⟩
    else
      let markFailed : List Payment :=
        updatePaymentByRef st.payments transactionRef
          (fun p => { p with paymentStatus := PaymentStatus.failed })
      match gw with
      | .unreachable =>
        ⟨.error (BAD_REQUEST, "Payment verification failed."),
          { st with payments := markFailed }, 1⟩
      | .answered false _ =>
        ⟨.error (BAD_REQUEST, "Payment verification failed."),
          { st with payments := markFailed }, 1⟩
      | .answered true data =>
        let isSuccessful := data.status == "success"
        let updF : Payment → Payment := fun p =>
          { p with
              paymentStatus := if isSuccessful then PaymentStatus.successful
                               else PaymentStatus.failed
              gatewayData := some data }
        let payments' := updatePaymentByRef st.payments transactionRef updF
        let notifs :=
          if isSuccessful then
            let payerNotif : Notification :=
              { userId := payment.userId
                title := "Payment Successful"
                message := "Your payment has been processed successfully."
                type := "payment_received" }
            match payment.bookingId with
            | none => [payerNotif]
            | some bid =>
              match st.bookings.find? (fun b => b.id == bid) with
              | none => [payerNotif]
              | some booking =>
                [{ userId := booking.musicianId
                   title := "Payment Received"
                   message := "Payment received for " ++ booking.eventName
                   type := "payment_received" }, payerNotif]
          else []
        ⟨.ok ((if isSuccessful then "Payment verified successfully."
               else "Payment verification failed."), updF payment),
          { st with payments := payments', notifications := notifs ++ st.notifications },
          1⟩

/-- The booking-linked payment row `processBookingPayment` creates on the
all-checks-passed path. -/
def newBookingPayment (st : Store) (userId bookingId : Nat) (amount : ℚ)
    (transactionRef accessCode : String) : Payment :=
  { id := st.nextPaymentId
    userId := userId
    bookingId := some bookingId
    amount := amount
    currency := "NGN"
    transactionRef := transactionRef
    paymentStatus := PaymentStatus.pending
    accessCode := some accessCode
    gatewayData := none }

/-- `processBookingPayment`: requires a booking owned by the caller in status
ACCEPTED with a truthy `agreedRate` and no pending/successful payment already
linked to it; then asks the gateway to initialize; on acceptance persists a
pending Payment row, on rejection returns the gateway's error and writes
nothing. -/
def processBookingPayment (st : Store) (userId bookingId : Nat)
    (transactionRef : String) (gw : GatewayInit) : Response Payment × Store :=
  match st.bookings.find? (fun b =>
      b.id == bookingId && b.clientId == userId &&
        decide (b.status = BookingStatus.ACCEPTED)) with
  | none => (.error (NOT_FOUND, "Booking not found or not in accepted state."), st)
  | some booking =>
    if jsTruthyOpt booking.agreedRate = false then
      (.error (BAD_REQUEST, "Booking does not have an agreed rate."), st)
    else
      if (st.payments.find? (fun p =>
          p.bookingId == some bookingId &&
            (decide (p.paymentStatus = PaymentStatus.successful) ||
             decide (p.paymentStatus = PaymentStatus.pending)))).isSome then
        (.error (BAD_REQUEST, "Payment already exists for this booking."), st)
      else
        match gw with
        | .rejected err =>
          (.error (BAD_REQUEST, jsOrStr err "Failed to initialize payment"), st)
        | .accepted _ accessCode =>
          let payment := newBookingPayment st userId bookingId
            (booking.agreedRate.getD 0) transactionRef accessCode
          (.ok payment,
            { st with
                payments := payment :: st.payments
                nextPaymentId := st.nextPaymentId + 1 })

/-! ## Subscription renewal (`auth.controller.ts`, `renewSubscription`) -/

/-- `renewSubscription`: loads the caller's profile and its subscription,
extends the window from `currentEndDate > now ? currentEndDate : now` by
`durationMonths` months (JavaScript `Date.setMonth` month addition, passed in
as `addMonths`), and resets the status to ACTIVE. -/
def renewSubscription (st : Store) (userId : Nat) (paymentId : Option Nat)
    (durationMonths : Nat) (now : Int) (addMonths : Int → Nat → Int) :
    Response Subscription × Store :=
  match st.profiles.find? (fun p => p.userId == userId) with
  | none => (.error (NOT_FOUND, "Subscription not found."), st)
  | some profile =>
    match st.subscriptions.find? (fun s => s.musicianProfileId == profile.id) with
    | none => (.error (NOT_FOUND, "Subscription not found."), st)
    | some sub =>
      let startDate := if sub.endDate > now then sub.endDate else now
      let newEndDate := addMonths startDate durationMonths
      let updF : Subscription → Subscription := fun s =>
        { s with
            status := SubStatus.ACTIVE
            startDate := startDate
            endDate := newEndDate
            paymentId := paymentId }
      let notif : Notification :=
        { userId := userId
          title := "Subscription Renewed"
          message := "Your subscription has been renewed"
          type := "subscription_renewed" }
      (.ok (updF sub),
        { st with
            subscriptions := st.subscriptions.map (fun s =>
              if s.id == sub.id then updF s else s)
            notifications := notif :: st.notifications })

/-! ## Review deletion (`user.controller.ts`, `deleteReview`) -/

/-- The reviews the recomputation query selects: all reviews whose booking's
`musicianId` is the target musician (Prisma
`review.findMany (where booking.musicianId = m)`). -/
def reviewsForMusician (bookings : List Booking) (reviews : List Review)
    (m : Nat) : List Review :=
  reviews.filter (fun r =>
    (bookings.find? (fun b => b.id == r.bookingId)).any (fun b => b.musicianId == m))

/-- `deleteReview`: the author deletes their review, then the target
musician's `averageRating` is recomputed over all remaining reviews for that
musician (0 when none remain).  The second error branch models the runtime
exception were the review's booking absent (the foreign key makes it
unreachable in practice). -/
def deleteReview (st : Store) (userId i : Nat) : Response Unit × Store :=
  match st.reviews.find? (fun r => r.id == i && r.reviewerId == userId) with
  | none => (.error (NOT_FOUND, "Review not found or unauthorized."), st)
  | some review =>
    match st.bookings.find? (fun b => b.id == review.bookingId) with
    | none => (.error (INTERNAL_SERVER_ERROR, "An unexpected error occurred"), st)
    | some booking =>
      let target := booking.musicianId
      let reviews' := st.reviews.filter (fun r => r.id != i)
      let musicianReviews := reviewsForMusician st.bookings reviews' target
      let averageRating : ℚ :=
        if musicianReviews.length > 0 then
          ((musicianReviews.map (fun r => (r.rating : ℚ))).sum) /
            (musicianReviews.length : ℚ)
        else 0
      (.ok (),
        { st with
            reviews := reviews'
            profiles := st.profiles.map (fun p =>
              if p.userId == target then { p with averageRating := averageRating } else p) })

/-! ## The booking lifecycle as a transition system -/

/-- One invocation of a booking lifecycle handler, with its request data. -/
inductive BookingOp
  | create (clientId musicianId : Nat) (eventName : String) (offeredRate : ℚ)
  | accept (userId i : Nat) (agreedRate : Option ℚ)
  | reject (userId i : Nat)
  | cancel (userId i : Nat)
  | complete (userId i : Nat)

/-- The store after running one booking lifecycle handler. -/
def runOp (st : Store) : BookingOp → Store
  | .create c m en r => (createBooking st c m en r).2
  | .accept u i r => (acceptBooking st u i r).2
  | .reject u i => (rejectBooking st u i).2
  | .cancel u i => (cancelBooking st u i).2
  | .complete u i => (completeBooking st u i).2

/-- The store after a sequence of booking lifecycle handler invocations. -/
def runOps (st : Store) (ops : List BookingOp) : Store := ops.foldl runOp st

/-- Status of the booking with primary key `i` in a bookings table. -/
def statusOfL (bs : List Booking) (i : Nat) : Option BookingStatus :=
  (bs.find? (fun b => b.id == i)).map Booking.status

/-- Status of the booking with primary key `i` in the store. -/
def statusOf (st : Store) (i : Nat) : Option BookingStatus :=
  statusOfL st.bookings i

/-- Store well-formedness guaranteed by the persistence layer: primary keys
are unique, and the id generator never reissues an existing key. -/
def WF (st : Store) : Prop :=
  (st.bookings.map Booking.id).Nodup ∧
  ∀ b ∈ st.bookings, b.id < st.nextBookingId

/-- One edge of the §4.1 state graph (or staying in place). -/
def stepOK : BookingStatus → BookingStatus → Bool
  | .PENDING, .PENDING => true
  | .PENDING, .ACCEPTED => true
  | .PENDING, .REJECTED => true
  | .PENDING, .CANCELLED => true
  | .ACCEPTED, .ACCEPTED => true
  | .ACCEPTED, .COMPLETED => true
  | .ACCEPTED, .CANCELLED => true
  | .REJECTED, .REJECTED => true
  | .COMPLETED, .COMPLETED => true
  | .CANCELLED, .CANCELLED => true
  | _, _ => false

/-- The terminal states of the §4.1 state graph. -/
def isTerminal : BookingStatus → Bool
  | .REJECTED => true
  | .COMPLETED => true
  | .CANCELLED => true
  | _ => false

/-- Reachability (any number of forward moves) in the §4.1 state graph. -/
def reach : BookingStatus → BookingStatus → Bool
  | .PENDING, _ => true
  | .ACCEPTED, .ACCEPTED => true
  | .ACCEPTED, .COMPLETED => true
  | .ACCEPTED, .CANCELLED => true
  | .REJECTED, .REJECTED => true
  | .COMPLETED, .COMPLETED => true
  | .CANCELLED, .CANCELLED => true
  | _, _ => false

theorem stepOK_refl (s : BookingStatus) : stepOK s s = true := by
  cases s <;> rfl

theorem reach_refl (s : BookingStatus) : reach s s = true := by
  cases s <;> rfl

theorem reach_of_stepOK {s s' : BookingStatus} (h : stepOK s s' = true) :
    reach s s' = true := by
  cases s <;> cases s' <;> simp_all [stepOK, reach]

theorem reach_trans {s s' s'' : BookingStatus} (h : reach s s' = true)
    (h' : stepOK s' s'' = true) : reach s s'' = true := by
  cases s <;> cases s' <;> cases s'' <;> simp_all [stepOK, reach]

theorem stepOK_reach_trans {s s' s'' : BookingStatus}
    (h : stepOK s s' = true) (h' : reach s' s'' = true) : reach s s'' = true := by
  cases s <;> cases s' <;> cases s'' <;> simp_all [stepOK, reach]

theorem reach_terminal {s s' : BookingStatus} (h : reach s s' = true)
    (ht : isTerminal s = true) : s' = s := by
  cases s <;> cases s' <;> simp_all [reach, isTerminal]

theorem reach_pending {s s' : BookingStatus} (h : reach s s' = true)
    (hp : s' = BookingStatus.PENDING) : s = BookingStatus.PENDING := by
  cases s <;> cases s' <;> simp_all [reach]

/-- `find?` commutes with mapping a function that does not change the
predicate's verdict. -/
theorem find?_map_pred {α : Type} (g : α → α) (p : α → Bool)
    (hg : ∀ a, p (g a) = p a) :
    ∀ l : List α, (l.map g).find? p = (l.find? p).map g
  | [] => rfl
  | a :: tl => by
    by_cases h : p a = true
    · rw [List.map_cons, List.find?_cons_of_pos _ (by rw [hg]; exact h),
        List.find?_cons_of_pos _ h, Option.map_some']
    · rw [List.map_cons,
        List.find?_cons_of_neg _ (by rw [hg]; simpa using h),
        List.find?_cons_of_neg _ (by simpa using h), find?_map_pred g p hg tl]

/-- In a table with unique primary keys, two rows with the same key are the
same row. -/
theorem booking_eq_of_id_eq {bs : List Booking}
    (hnd : (bs.map Booking.id).Nodup) {b b' : Booking}
    (hb : b ∈ bs) (hb' : b' ∈ bs) (h : b.id = b'.id) : b = b' :=
  List.inj_on_of_nodup_map hnd hb hb' h

/-- Effect of a key-preserving row update on `statusOfL`. -/
theorem statusOfL_update (bs : List Booking)
    (hnd : (bs.map Booking.id).Nodup) (tid : Nat) (f : Booking → Booking)
    (hf : ∀ b, (f b).id = b.id) {b₀ : Booking} (hb₀ : b₀ ∈ bs)
    (hid₀ : b₀.id = tid) {j : Nat} {s : BookingStatus}
    (h : statusOfL bs j = some s) :
    (j = tid → s = b₀.status ∧
      statusOfL (updateBookingById bs tid f) j = some (f b₀).status) ∧
    (j ≠ tid → statusOfL (updateBookingById bs tid f) j = some s) := by
  have hg : ∀ b : Booking, (if b.id == tid then f b else b).id = b.id := by
    intro b
    by_cases hb : b.id == tid
    · simp [hb, hf]
    · simp [hb]
  have hp : ∀ b : Booking,
      ((if b.id == tid then f b else b).id == j) = (b.id == j) := by
    intro b; rw [hg]
  have hcomm :
      (updateBookingById bs tid f).find? (fun b => b.id == j) =
        (bs.find? (fun b => b.id == j)).map
          (fun b => if b.id == tid then f b else b) :=
    find?_map_pred _ _ hp bs
  obtain ⟨b, hfind, hstat⟩ : ∃ b, bs.find? (fun b => b.id == j) = some b ∧
      b.status = s := by
    unfold statusOfL at h
    cases hf' : bs.find? (fun b => b.id == j) with
    | none => rw [hf'] at h; simp at h
    | some b => rw [hf'] at h; exact ⟨b, rfl, by simpa using h⟩
  have hmem : b ∈ bs := List.mem_of_find?_eq_some hfind
  have hbid : b.id = j := by
    have := List.find?_some hfind
    simpa using this
  constructor
  · intro hj
    have hbb₀ : b = b₀ :=
      booking_eq_of_id_eq hnd hmem hb₀ (by rw [hbid, hid₀, hj])
    refine ⟨by rw [← hstat, hbb₀], ?_⟩
    unfold statusOfL
    rw [hcomm, hfind, Option.map_some', Option.map_some']
    have : (b.id == tid) = true := by simp [hbid, hj]
    rw [this]
    simp [hbb₀]
  · intro hj
    unfold statusOfL
    rw [hcomm, hfind, Option.map_some', Option.map_some']
    have : (b.id == tid) = false := by simp [hbid]; exact hj
    rw [this]
    simpa using hstat

/-- `createBooking` either leaves the store unchanged or inserts one booking
carrying the fresh id. -/
theorem createBooking_store (st : Store) (c m : Nat) (en : String) (r : ℚ) :
    (createBooking st c m en r).2 = st ∨
    ∃ b : Booking, b.id = st.nextBookingId ∧
      b.status = BookingStatus.PENDING ∧ b.agreedRate = none ∧
      (createBooking st c m en r).2.bookings = b :: st.bookings ∧
      (createBooking st c m en r).2.nextBookingId = st.nextBookingId + 1 := by
  unfold createBooking
  split
  · exact Or.inl rfl
  · split
    · exact Or.inl rfl
    · split
      · exact Or.inl rfl
      · split
        · exact Or.inl rfl
        · exact Or.inr ⟨_, rfl, rfl, rfl, rfl, rfl⟩

/-- `acceptBooking` either leaves the store unchanged or updates a PENDING
booking it found by id and owner, setting every targeted row to ACCEPTED. -/
theorem acceptBooking_store (st : Store) (u i : Nat) (r : Option ℚ) :
    (acceptBooking st u i r).2 = st ∨
    ∃ (b₀ : Booking) (f : Booking → Booking),
      b₀ ∈ st.bookings ∧ b₀.id = i ∧ b₀.status = BookingStatus.PENDING ∧
      (∀ b, (f b).id = b.id) ∧ (∀ b, (f b).status = BookingStatus.ACCEPTED) ∧
      (acceptBooking st u i r).2.bookings = updateBookingById st.bookings i f ∧
      (acceptBooking st u i r).2.nextBookingId = st.nextBookingId := by
  unfold acceptBooking
  split
  · exact Or.inl rfl
  · next booking hfind =>
    have hpred := List.find?_some hfind
    simp only [Bool.and_eq_true, beq_iff_eq, decide_eq_true_eq] at hpred
    exact Or.inr ⟨booking,
      fun b => { b with
        status := BookingStatus.ACCEPTED
        agreedRate := some (jsOr r booking.offeredRate) },
      List.mem_of_find?_eq_some hfind, hpred.1.1,
      hpred.2, fun b => rfl, fun b => rfl, rfl, rfl⟩

/-- `rejectBooking` either leaves the store unchanged or updates a PENDING
booking it found by id and owner, setting every targeted row to REJECTED. -/
theorem rejectBooking_store (st : Store) (u i : Nat) :
    (rejectBooking st u i).2 = st ∨
    ∃ (b₀ : Booking) (f : Booking → Booking),
      b₀ ∈ st.bookings ∧ b₀.id = i ∧ b₀.status = BookingStatus.PENDING ∧
      (∀ b, (f b).id = b.id) ∧ (∀ b, (f b).status = BookingStatus.REJECTED) ∧
      (rejectBooking st u i).2.bookings = updateBookingById st.bookings i f ∧
      (rejectBooking st u i).2.nextBookingId = st.nextBookingId := by
  unfold rejectBooking
  split
  · exact Or.inl rfl
  · next booking hfind =>
    have hpred := List.find?_some hfind
    simp only [Bool.and_eq_true, beq_iff_eq, decide_eq_true_eq] at hpred
    exact Or.inr ⟨booking,
      fun b => { b with status := BookingStatus.REJECTED },
      List.mem_of_find?_eq_some hfind, hpred.1.1,
      hpred.2, fun b => rfl, fun b => rfl, rfl, rfl⟩

/-- `cancelBooking` either leaves the store unchanged or updates a PENDING or
ACCEPTED booking it found, setting every targeted row to CANCELLED. -/
theorem cancelBooking_store (st : Store) (u i : Nat) :
    (cancelBooking st u i).2 = st ∨
    ∃ (b₀ : Booking) (f : Booking → Booking),
      b₀ ∈ st.bookings ∧ b₀.id = i ∧
      (b₀.status = BookingStatus.PENDING ∨ b₀.status = BookingStatus.ACCEPTED) ∧
      (∀ b, (f b).id = b.id) ∧ (∀ b, (f b).status = BookingStatus.CANCELLED) ∧
      (cancelBooking st u i).2.bookings = updateBookingById st.bookings i f ∧
      (cancelBooking st u i).2.nextBookingId = st.nextBookingId := by
  unfold cancelBooking
  split
  · exact Or.inl rfl
  · next booking hfind =>
    have hpred := List.find?_some hfind
    simp only [Bool.and_eq_true, Bool.or_eq_true, beq_iff_eq,
      decide_eq_true_eq] at hpred
    exact Or.inr ⟨booking,
      fun b => { b with status := BookingStatus.CANCELLED },
      List.mem_of_find?_eq_some hfind, hpred.1.1,
      hpred.2, fun b => rfl, fun b => rfl, rfl, rfl⟩

/-- `completeBooking` either leaves the store unchanged or updates an ACCEPTED
booking it found, setting every targeted row to COMPLETED. -/
theorem completeBooking_store (st : Store) (u i : Nat) :
    (completeBooking st u i).2 = st ∨
    ∃ (b₀ : Booking) (f : Booking → Booking),
      b₀ ∈ st.bookings ∧ b₀.id = i ∧ b₀.status = BookingStatus.ACCEPTED ∧
      (∀ b, (f b).id = b.id) ∧ (∀ b, (f b).status = BookingStatus.COMPLETED) ∧
      (completeBooking st u i).2.bookings = updateBookingById st.bookings i f ∧
      (completeBooking st u i).2.nextBookingId = st.nextBookingId := by
  unfold completeBooking
  split
  · exact Or.inl rfl
  · next booking hfind =>
    have hpred := List.find?_some hfind
    simp only [Bool.and_eq_true, Bool.or_eq_true, beq_iff_eq,
      decide_eq_true_eq] at hpred
    exact Or.inr ⟨booking,
      fun b => { b with status := BookingStatus.COMPLETED },
      List.mem_of_find?_eq_some hfind, hpred.1.1,
      hpred.2, fun b => rfl, fun b => rfl, rfl, rfl⟩

/-- A key-preserving row update keeps the store well-formed. -/
theorem WF_of_update {st st' : Store} (hwf : WF st) (i : Nat)
    (f : Booking → Booking) (hf : ∀ b, (f b).id = b.id)
    (hb : st'.bookings = updateBookingById st.bookings i f)
    (hn : st'.nextBookingId = st.nextBookingId) : WF st' := by
  have hids : st'.bookings.map Booking.id = st.bookings.map Booking.id := by
    rw [hb]
    unfold updateBookingById
    rw [List.map_map]
    apply List.map_congr_left
    intro b _
    by_cases hbi : (b.id == i) = true <;> simp [Function.comp, hbi, hf]
  constructor
  · rw [hids]; exact hwf.1
  · intro b hbmem
    rw [hb] at hbmem
    unfold updateBookingById at hbmem
    obtain ⟨b', hb', hbeq⟩ := List.mem_map.mp hbmem
    rw [hn, ← hbeq]
    have : (if b'.id == i then f b' else b').id = b'.id := by
      by_cases hbi : (b'.id == i) = true <;> simp [hbi, hf]
    rw [this]
    exact hwf.2 b' hb'

/-- Inserting a row with the fresh id keeps the store well-formed. -/
theorem WF_of_insert {st st' : Store} (hwf : WF st) {b : Booking}
    (hid : b.id = st.nextBookingId)
    (hb : st'.bookings = b :: st.bookings)
    (hn : st'.nextBookingId = st.nextBookingId + 1) : WF st' := by
  constructor
  · rw [hb, List.map_cons, List.nodup_cons]
    refine ⟨?_, hwf.1⟩
    intro hmem
    obtain ⟨b', hb', hbeq⟩ := List.mem_map.mp hmem
    have := hwf.2 b' hb'
    omega
  · intro b' hbmem
    rw [hb] at hbmem
    rw [hn]
    rcases List.mem_cons.mp hbmem with hbeq | hmem
    · rw [hbeq, hid]; omega
    · have := hwf.2 b' hmem; omega

/-- Every booking lifecycle handler keeps the store well-formed. -/
theorem WF_runOp (st : Store) (hwf : WF st) (op : BookingOp) :
    WF (runOp st op) := by
  cases op with
  | create c m en r =>
    show WF (createBooking st c m en r).2
    rcases createBooking_store st c m en r with heq | ⟨b, hid, _, _, hb, hn⟩
    · rw [heq]; exact hwf
    · exact WF_of_insert hwf hid hb hn
  | accept u i r =>
    show WF (acceptBooking st u i r).2
    rcases acceptBooking_store st u i r with heq | ⟨b₀, f, _, _, _, hf, _, hb, hn⟩
    · rw [heq]; exact hwf
    · exact WF_of_update hwf i f hf hb hn
  | reject u i =>
    show WF (rejectBooking st u i).2
    rcases rejectBooking_store st u i with heq | ⟨b₀, f, _, _, _, hf, _, hb, hn⟩
    · rw [heq]; exact hwf
    · exact WF_of_update hwf i f hf hb hn
  | cancel u i =>
    show WF (cancelBooking st u i).2
    rcases cancelBooking_store st u i with heq | ⟨b₀, f, _, _, _, hf, _, hb, hn⟩
    · rw [heq]; exact hwf
    · exact WF_of_update hwf i f hf hb hn
  | complete u i =>
    show WF (completeBooking st u i).2
    rcases completeBooking_store st u i with heq | ⟨b₀, f, _, _, _, hf, _, hb, hn⟩
    · rw [heq]; exact hwf
    · exact WF_of_update hwf i f hf hb hn

/-- A booking visible through `statusOf` is a row of the table. -/
theorem statusOf_mem {st : Store} {j : Nat} {s : BookingStatus}
    (h : statusOf st j = some s) :
    ∃ b ∈ st.bookings, b.id = j ∧ b.status = s := by
  unfold statusOf statusOfL at h
  cases hfind : st.bookings.find? (fun b => b.id == j) with
  | none => rw [hfind] at h; simp at h
  | some b =>
    rw [hfind] at h
    refine ⟨b, List.mem_of_find?_eq_some hfind, ?_, by simpa using h⟩
    have := List.find?_some hfind
    simpa using this

/-- One handler invocation moves any booking's status along at most one edge
of the §4.1 graph. -/
theorem statusOf_runOp (st : Store) (hwf : WF st) (op : BookingOp)
    {j : Nat} {s : BookingStatus} (h : statusOf st j = some s) :
    ∃ s', statusOf (runOp st op) j = some s' ∧ stepOK s s' = true := by
  cases op with
  | create c m en r =>
    show ∃ s', statusOf (createBooking st c m en r).2 j = some s' ∧ _
    rcases createBooking_store st c m en r with heq | ⟨b, hid, _, _, hb, _⟩
    · rw [heq]; exact ⟨s, h, stepOK_refl s⟩
    · refine ⟨s, ?_, stepOK_refl s⟩
      unfold statusOf statusOfL
      rw [hb, List.find?_cons_of_neg]
      · exact h
      · obtain ⟨b', hmem', hid', _⟩ := statusOf_mem h
        have hlt := hwf.2 b' hmem'
        simp only [beq_iff_eq, hid]
        omega
  | accept u i r =>
    show ∃ s', statusOf (acceptBooking st u i r).2 j = some s' ∧ _
    rcases acceptBooking_store st u i r with heq | ⟨b₀, f, hmem, hid, hst, hf, hfst, hb, _⟩
    · rw [heq]; exact ⟨s, h, stepOK_refl s⟩
    · have hupd := statusOfL_update st.bookings hwf.1 i f hf hmem hid h
      by_cases hj : j = i
      · obtain ⟨hs, hres⟩ := hupd.1 hj
        refine ⟨(f b₀).status, ?_, ?_⟩
        · unfold statusOf; rw [hb]; exact hres
        · rw [hs, hst, hfst]; rfl
      · refine ⟨s, ?_, stepOK_refl s⟩
        unfold statusOf; rw [hb]; exact hupd.2 hj
  | reject u i =>
    show ∃ s', statusOf (rejectBooking st u i).2 j = some s' ∧ _
    rcases rejectBooking_store st u i with heq | ⟨b₀, f, hmem, hid, hst, hf, hfst, hb, _⟩
    · rw [heq]; exact ⟨s, h, stepOK_refl s⟩
    · have hupd := statusOfL_update st.bookings hwf.1 i f hf hmem hid h
      by_cases hj : j = i
      · obtain ⟨hs, hres⟩ := hupd.1 hj
        refine ⟨(f b₀).status, ?_, ?_⟩
        · unfold statusOf; rw [hb]; exact hres
        · rw [hs, hst, hfst]; rfl
      · refine ⟨s, ?_, stepOK_refl s⟩
        unfold statusOf; rw [hb]; exact hupd.2 hj
  | cancel u i =>
    show ∃ s', statusOf (cancelBooking st u i).2 j = some s' ∧ _
    rcases cancelBooking_store st u i with heq | ⟨b₀, f, hmem, hid, hst, hf, hfst, hb, _⟩
    · rw [heq]; exact ⟨s, h, stepOK_refl s⟩
    · have hupd := statusOfL_update st.bookings hwf.1 i f hf hmem hid h
      by_cases hj : j = i
      · obtain ⟨hs, hres⟩ := hupd.1 hj
        refine ⟨(f b₀).status, ?_, ?_⟩
        · unfold statusOf; rw [hb]; exact hres
        · rw [hs, hfst]
          rcases hst with h1 | h1 <;> rw [h1] <;> rfl
      · refine ⟨s, ?_, stepOK_refl s⟩
        unfold statusOf; rw [hb]; exact hupd.2 hj
  | complete u i =>
    show ∃ s', statusOf (completeBooking st u i).2 j = some s' ∧ _
    rcases completeBooking_store st u i with heq | ⟨b₀, f, hmem, hid, hst, hf, hfst, hb, _⟩
    · rw [heq]; exact ⟨s, h, stepOK_refl s⟩
    · have hupd := statusOfL_update st.bookings hwf.1 i f hf hmem hid h
      by_cases hj : j = i
      · obtain ⟨hs, hres⟩ := hupd.1 hj
        refine ⟨(f b₀).status, ?_, ?_⟩
        · unfold statusOf; rw [hb]; exact hres
        · rw [hs, hst, hfst]; rfl
      · refine ⟨s, ?_, stepOK_refl s⟩
        unfold statusOf; rw [hb]; exact hupd.2 hj

/-- Across any sequence of handler invocations, a booking's status only moves
along the reachability relation of the §4.1 graph. -/
theorem runOps_reach (ops : List BookingOp) : ∀ st : Store, WF st →
    ∀ {j : Nat} {s : BookingStatus}, statusOf st j = some s →
    ∃ s', statusOf (runOps st ops) j = some s' ∧ reach s s' = true := by
  induction ops with
  | nil =>
    intro st _ j s h
    exact ⟨s, h, reach_refl s⟩
  | cons op tl ih =>
    intro st hwf j s h
    obtain ⟨s₁, h₁, hstep⟩ := statusOf_runOp st hwf op h
    obtain ⟨s', h', hr⟩ := ih (runOp st op) (WF_runOp st hwf op) h₁
    exact ⟨s', h', stepOK_reach_trans hstep hr⟩

/-- In a table whose keys are unique, `find?` by the key of a member row
returns that row. -/
theorem find?_eq_of_key_nodup {α κ : Type} [BEq κ] [LawfulBEq κ] (key : α → κ)
    {l : List α} (hnd : (l.map key).Nodup) {a : α} (ha : a ∈ l) {k : κ}
    (hk : key a = k) : l.find? (fun x => key x == k) = some a := by
  cases hf : l.find? (fun x => key x == k) with
  | none =>
    rw [List.find?_eq_none] at hf
    have := hf a ha
    simp [hk] at this
  | some x =>
    have hx := List.find?_some hf
    simp only [beq_iff_eq] at hx
    have : x = a :=
      List.inj_on_of_nodup_map hnd (List.mem_of_find?_eq_some hf) ha
        (by rw [hx, hk])
    rw [this]

/-- A keyed row update (`update (where key = k)`) rewrites exactly the row
`find?` locates under that key. -/
theorem find?_map_update {α κ : Type} [BEq κ] [LawfulBEq κ] (key : α → κ)
    {l : List α} {k : κ} {a : α}
    (hfind : l.find? (fun x => key x == k) = some a)
    (f : α → α) (hf : ∀ x, key (f x) = key x) :
    (l.map (fun x => if key x == k then f x else x)).find?
      (fun x => key x == k) = some (f a) := by
  have hp : ∀ x : α,
      (key (if key x == k then f x else x) == k) = (key x == k) := by
    intro x
    by_cases hx : (key x == k) = true <;> simp [hx, hf]
  rw [find?_map_pred _ _ hp, hfind, Option.map_some']
  have hka : (key a == k) = true :=
    List.find?_some (p := fun x => key x == k) hfind
  simp [hka]

/-! ## C1: booking status monotonicity -/

/-- C1: across every sequence of the five lifecycle operations, a booking's
status only moves forward along the graph PENDING → ACCEPTED → COMPLETED,
PENDING → REJECTED, {PENDING, ACCEPTED} → CANCELLED; no operation changes a
terminal status, and no state sequence re-enters PENDING. -/
theorem booking_status_monotone (st : Store) (hwf : WF st)
    (ops : List BookingOp) (i : Nat) (s s' : BookingStatus)
    (h : statusOf st i = some s) (h' : statusOf (runOps st ops) i = some s') :
    reach s s' = true ∧ (isTerminal s = true → s' = s) ∧
    (s' = BookingStatus.PENDING → s = BookingStatus.PENDING) := by
  obtain ⟨s'', h'', hr⟩ := runOps_reach ops st hwf h
  have hs : s' = s'' := by
    rw [h'] at h''
    exact Option.some.inj h''
  subst hs
  exact ⟨hr, fun ht => reach_terminal hr ht, fun hp => reach_pending hr hp⟩

/-- Concrete store for witnesses: one client (1), one available musician (2),
one PENDING booking (0) offering 100. -/
def wStore1 : Store :=
  { users := [{ id := 1, role := Role.CLIENT }, { id := 2, role := Role.MUSICIAN }]
    profiles := [{ id := 7, userId := 2, isAvailable := true, totalGigs := 0,
                   averageRating := 0 }]
    bookings := [{ id := 0, clientId := 1, musicianId := 2, eventName := "gig",
                   offeredRate := 100, agreedRate := none,
                   status := BookingStatus.PENDING }]
    payments := []
    subscriptions := []
    reviews := []
    notifications := []
    nextBookingId := 1
    nextPaymentId := 0 }

theorem booking_status_monotone_witness :
    reach BookingStatus.PENDING BookingStatus.ACCEPTED = true ∧
    (isTerminal BookingStatus.PENDING = true →
      BookingStatus.ACCEPTED = BookingStatus.PENDING) ∧
    (BookingStatus.ACCEPTED = BookingStatus.PENDING →
      BookingStatus.PENDING = BookingStatus.PENDING) :=
  booking_status_monotone wStore1 ⟨by decide, by decide⟩
    [BookingOp.accept 2 0 none] 0 BookingStatus.PENDING BookingStatus.ACCEPTED
    (by decide) (by decide)

/-! ## C2, C5, C10: payment verification -/

/-- C2: verifying a payment whose stored status is already `successful`
returns it unchanged, performs no write, and never invokes the gateway
collaborator — so a successful payment is never rewritten by later verify
calls. -/
theorem verifyPayment_successful_noop (st : Store) (ref : String)
    (gw : GatewayVerify) (p : Payment)
    (hfind : st.payments.find? (fun q => q.transactionRef == ref) = some p)
    (hs : p.paymentStatus = PaymentStatus.successful) :
    verifyPayment st ref gw = ⟨.ok ("Payment already verified.", p), st, 0⟩ := by
  simp [verifyPayment, hfind, hs]

/-- Concrete payment/store for the C2 witness. -/
def wPay2 : Payment :=
  { id := 0, userId := 1, bookingId := none, amount := 50, currency := "NGN",
    transactionRef := "R", paymentStatus := PaymentStatus.successful,
    accessCode := none, gatewayData := none }

def wStore2 : Store :=
  { users := [], profiles := [], bookings := [], payments := [wPay2],
    subscriptions := [], reviews := [], notifications := [],
    nextBookingId := 0, nextPaymentId := 1 }

theorem verifyPayment_successful_noop_witness :
    verifyPayment wStore2 "R" GatewayVerify.unreachable =
      ⟨.ok ("Payment already verified.", wPay2), wStore2, 0⟩ :=
  verifyPayment_successful_noop wStore2 "R" GatewayVerify.unreachable wPay2
    (by decide) (by decide)

/-- C5: when the payment is not already successful and the gateway call
itself fails, the payment is rewritten to `failed`, the failure is surfaced
as an error response, and the gateway was invoked exactly once (no retry). -/
theorem verifyPayment_gateway_unreachable (st : Store) (ref : String)
    (p : Payment)
    (hfind : st.payments.find? (fun q => q.transactionRef == ref) = some p)
    (hs : p.paymentStatus ≠ PaymentStatus.successful) :
    (verifyPayment st ref GatewayVerify.unreachable).response =
        .error (BAD_REQUEST, "Payment verification failed.") ∧
    (verifyPayment st ref GatewayVerify.unreachable).gatewayCalls = 1 ∧
    (verifyPayment st ref GatewayVerify.unreachable).store.payments.find?
        (fun q => q.transactionRef == ref) =
      some { p with paymentStatus := PaymentStatus.failed } := by
  have hres : verifyPayment st ref GatewayVerify.unreachable =
      ⟨.error (BAD_REQUEST, "Payment verification failed."),
        { st with payments := updatePaymentByRef st.payments ref (fun q =>
            { q with paymentStatus := PaymentStatus.failed }) }, 1⟩ := by
    simp [verifyPayment, hfind, hs]
  rw [hres]
  refine ⟨rfl, rfl, ?_⟩
  show (updatePaymentByRef st.payments ref
      (fun q => { q with paymentStatus := PaymentStatus.failed })).find?
      (fun q => q.transactionRef == ref) = _
  unfold updatePaymentByRef
  exact find?_map_update Payment.transactionRef hfind _ (fun q => rfl)

/-- Concrete pending payment/store for the C5 witness. -/
def wPay5 : Payment :=
  { id := 0, userId := 1, bookingId := none, amount := 50, currency := "NGN",
    transactionRef := "R", paymentStatus := PaymentStatus.pending,
    accessCode := none, gatewayData := none }

def wStore5 : Store :=
  { users := [], profiles := [], bookings := [], payments := [wPay5],
    subscriptions := [], reviews := [], notifications := [],
    nextBookingId := 0, nextPaymentId := 1 }

theorem verifyPayment_gateway_unreachable_witness :
    (verifyPayment wStore5 "R" GatewayVerify.unreachable).response =
        .error (BAD_REQUEST, "Payment verification failed.") ∧
    (verifyPayment wStore5 "R" GatewayVerify.unreachable).gatewayCalls = 1 ∧
    (verifyPayment wStore5 "R" GatewayVerify.unreachable).store.payments.find?
        (fun q => q.transactionRef == "R") =
      some { wPay5 with paymentStatus := PaymentStatus.failed } :=
  verifyPayment_gateway_unreachable wStore5 "R" wPay5 (by decide) (by decide)

/-- C10: a payment marked `failed` is not terminal — a later verify call
invokes the gateway again, and a gateway answer reporting success rewrites
the status to `successful`. -/
theorem verifyPayment_failed_not_terminal (st : Store) (ref : String)
    (p : Payment)
    (hfind : st.payments.find? (fun q => q.transactionRef == ref) = some p)
    (hs : p.paymentStatus = PaymentStatus.failed) (data : PaystackData)
    (hd : data.status = "success") :
    (verifyPayment st ref (GatewayVerify.answered true data)).gatewayCalls = 1 ∧
    (verifyPayment st ref (GatewayVerify.answered true data)).store.payments.find?
        (fun q => q.transactionRef == ref) =
      some { p with paymentStatus := PaymentStatus.successful,
                    gatewayData := some data } ∧
    (verifyPayment st ref (GatewayVerify.answered true data)).response =
      .ok ("Payment verified successfully.",
        { p with paymentStatus := PaymentStatus.successful,
                 gatewayData := some data }) := by
  have hns : ¬ p.paymentStatus = PaymentStatus.successful := by
    rw [hs]; decide
  have hds : (data.status == "success") = true := by simp [hd]
  refine ⟨?_, ?_, ?_⟩
  · simp [verifyPayment, hfind, hns]
  · have hpay : (verifyPayment st ref (GatewayVerify.answered true data)).store.payments =
        updatePaymentByRef st.payments ref (fun q =>
          { q with paymentStatus := PaymentStatus.successful,
                   gatewayData := some data }) := by
      simp [verifyPayment, hfind, hns, hds]
    rw [hpay]
    unfold updatePaymentByRef
    exact find?_map_update Payment.transactionRef hfind _ (fun q => rfl)
  · simp [verifyPayment, hfind, hns, hds]

/-- Concrete failed payment/store and gateway success answer for the C10
witness. -/
def wPay10 : Payment :=
  { id := 0, userId := 1, bookingId := none, amount := 50, currency := "NGN",
    transactionRef := "R", paymentStatus := PaymentStatus.failed,
    accessCode := none, gatewayData := none }

def wStore10 : Store :=
  { users := [], profiles := [], bookings := [], payments := [wPay10],
    subscriptions := [], reviews := [], notifications := [],
    nextBookingId := 0, nextPaymentId := 1 }

def wData10 : PaystackData :=
  { status := "success", paid_at := "t", channel := "card", fees := 1 }

theorem verifyPayment_failed_not_terminal_witness :
    (verifyPayment wStore10 "R" (GatewayVerify.answered true wData10)).gatewayCalls = 1 ∧
    (verifyPayment wStore10 "R" (GatewayVerify.answered true wData10)).store.payments.find?
        (fun q => q.transactionRef == "R") =
      some { wPay10 with paymentStatus := PaymentStatus.successful,
                         gatewayData := some wData10 } ∧
    (verifyPayment wStore10 "R" (GatewayVerify.answered true wData10)).response =
      .ok ("Payment verified successfully.",
        { wPay10 with paymentStatus := PaymentStatus.successful,
                      gatewayData := some wData10 }) :=
  verifyPayment_failed_not_terminal wStore10 "R" wPay10 (by decide) (by decide)
    wData10 (by decide)

/-! ## C4: booking-linked payment initiation -/

/-- The precondition `processBookingPayment` enforces before contacting the
gateway: the booking exists, belongs to the caller, is ACCEPTED, its
`agreedRate` is truthy (non-null **and** non-zero), and no pending or
successful payment is already linked to it. -/
def bookingPaymentAllowed (st : Store) (userId bookingId : Nat) : Bool :=
  match st.bookings.find? (fun b =>
      b.id == bookingId && b.clientId == userId &&
        decide (b.status = BookingStatus.ACCEPTED)) with
  | none => false
  | some booking =>
      jsTruthyOpt booking.agreedRate &&
      !(st.payments.find? (fun p =>
          p.bookingId == some bookingId &&
            (decide (p.paymentStatus = PaymentStatus.successful) ||
             decide (p.paymentStatus = PaymentStatus.pending)))).isSome

/-- Shorthand for the booking lookup `processBookingPayment` performs. -/
def findAcceptedBookingOf (st : Store) (userId bookingId : Nat) : Option Booking :=
  st.bookings.find? (fun b =>
    b.id == bookingId && b.clientId == userId &&
      decide (b.status = BookingStatus.ACCEPTED))

/-- Shorthand for the duplicate-payment lookup `processBookingPayment`
performs. -/
def findBlockingPaymentOf (st : Store) (bookingId : Nat) : Option Payment :=
  st.payments.find? (fun p =>
    p.bookingId == some bookingId &&
      (decide (p.paymentStatus = PaymentStatus.successful) ||
       decide (p.paymentStatus = PaymentStatus.pending)))

theorem pbp_eq_noBooking {st : Store} {u bid : Nat} (ref : String)
    (gw : GatewayInit) (h : findAcceptedBookingOf st u bid = none) :
    processBookingPayment st u bid ref gw =
      (.error (NOT_FOUND, "Booking not found or not in accepted state."), st) := by
  unfold findAcceptedBookingOf at h
  simp [processBookingPayment, h]

theorem pbp_eq_falsyRate {st : Store} {u bid : Nat} (ref : String)
    (gw : GatewayInit) {booking : Booking}
    (h : findAcceptedBookingOf st u bid = some booking)
    (htr : jsTruthyOpt booking.agreedRate = false) :
    processBookingPayment st u bid ref gw =
      (.error (BAD_REQUEST, "Booking does not have an agreed rate."), st) := by
  unfold findAcceptedBookingOf at h
  simp [processBookingPayment, h, htr]

theorem pbp_eq_duplicate {st : Store} {u bid : Nat} (ref : String)
    (gw : GatewayInit) {booking : Booking} {pex : Payment}
    (h : findAcceptedBookingOf st u bid = some booking)
    (htr : jsTruthyOpt booking.agreedRate = true)
    (hfp : findBlockingPaymentOf st bid = some pex) :
    processBookingPayment st u bid ref gw =
      (.error (BAD_REQUEST, "Payment already exists for this booking."), st) := by
  unfold findAcceptedBookingOf at h
  unfold findBlockingPaymentOf at hfp
  simp [processBookingPayment, h, htr, hfp]

theorem pbp_eq_rejected {st : Store} {u bid : Nat} (ref msg : String)
    {booking : Booking}
    (h : findAcceptedBookingOf st u bid = some booking)
    (htr : jsTruthyOpt booking.agreedRate = true)
    (hfp : findBlockingPaymentOf st bid = none) :
    processBookingPayment st u bid ref (GatewayInit.rejected msg) =
      (.error (BAD_REQUEST, jsOrStr msg "Failed to initialize payment"), st) := by
  unfold findAcceptedBookingOf at h
  unfold findBlockingPaymentOf at hfp
  simp [processBookingPayment, h, htr, hfp]

theorem pbp_eq_accepted {st : Store} {u bid : Nat} (ref url ac : String)
    {booking : Booking}
    (h : findAcceptedBookingOf st u bid = some booking)
    (htr : jsTruthyOpt booking.agreedRate = true)
    (hfp : findBlockingPaymentOf st bid = none) :
    processBookingPayment st u bid ref (GatewayInit.accepted url ac) =
      (.ok (newBookingPayment st u bid (booking.agreedRate.getD 0) ref ac),
        { st with
            payments := newBookingPayment st u bid (booking.agreedRate.getD 0)
              ref ac :: st.payments
            nextPaymentId := st.nextPaymentId + 1 }) := by
  unfold findAcceptedBookingOf at h
  unfold findBlockingPaymentOf at hfp
  simp [processBookingPayment, h, htr, hfp]

theorem allowed_eq_noBooking {st : Store} {u bid : Nat}
    (h : findAcceptedBookingOf st u bid = none) :
    bookingPaymentAllowed st u bid = false := by
  unfold findAcceptedBookingOf at h
  simp [bookingPaymentAllowed, h]

theorem allowed_eq_falsyRate {st : Store} {u bid : Nat} {booking : Booking}
    (h : findAcceptedBookingOf st u bid = some booking)
    (htr : jsTruthyOpt booking.agreedRate = false) :
    bookingPaymentAllowed st u bid = false := by
  unfold findAcceptedBookingOf at h
  simp [bookingPaymentAllowed, h, htr]

theorem allowed_eq_duplicate {st : Store} {u bid : Nat} {booking : Booking}
    {pex : Payment} (h : findAcceptedBookingOf st u bid = some booking)
    (hfp : findBlockingPaymentOf st bid = some pex) :
    bookingPaymentAllowed st u bid = false := by
  unfold findAcceptedBookingOf at h
  unfold findBlockingPaymentOf at hfp
  simp [bookingPaymentAllowed, h, hfp]

theorem allowed_eq_clear {st : Store} {u bid : Nat} {booking : Booking}
    (h : findAcceptedBookingOf st u bid = some booking)
    (htr : jsTruthyOpt booking.agreedRate = true)
    (hfp : findBlockingPaymentOf st bid = none) :
    bookingPaymentAllowed st u bid = true := by
  unfold findAcceptedBookingOf at h
  unfold findBlockingPaymentOf at hfp
  simp [bookingPaymentAllowed, h, htr, hfp]

/-- C4 (amended): a new pending Payment row linked to the booking is created
iff the precondition holds — with a **truthy** (non-null and non-zero)
`agreedRate`, not merely a non-null one — and the gateway accepts the
initialize call; on gateway rejection, the gateway's error is returned and no
local Payment record is created. -/
theorem processBookingPayment_spec (st : Store) (u bid : Nat) (ref : String)
    (gw : GatewayInit) :
    ((∃ pm : Payment,
        (processBookingPayment st u bid ref gw).2.payments = pm :: st.payments ∧
        pm.paymentStatus = PaymentStatus.pending ∧ pm.bookingId = some bid)
      ↔ (bookingPaymentAllowed st u bid = true ∧
          ∃ url ac, gw = GatewayInit.accepted url ac))
    ∧ (∀ msg, gw = GatewayInit.rejected msg →
        (processBookingPayment st u bid ref gw).2 = st ∧
        (bookingPaymentAllowed st u bid = true →
          (processBookingPayment st u bid ref gw).1 =
            .error (BAD_REQUEST, jsOrStr msg "Failed to initialize payment"))) := by
  have hne : ∀ pm : Payment, st.payments ≠ pm :: st.payments := by
    intro pm hcontra
    have := congrArg List.length hcontra
    simp at this
  cases hfb : findAcceptedBookingOf st u bid with
  | none =>
    have hall := allowed_eq_noBooking hfb
    have heq := pbp_eq_noBooking ref gw hfb
    rw [heq, hall]
    refine ⟨⟨?_, ?_⟩, ?_⟩
    · rintro ⟨pm, hp, -, -⟩
      exact absurd hp (hne pm)
    · rintro ⟨hcontra, -⟩
      cases hcontra
    · exact fun msg _ => ⟨rfl, fun hcontra => by cases hcontra⟩
  | some booking =>
    cases htr : jsTruthyOpt booking.agreedRate with
    | false =>
      have hall := allowed_eq_falsyRate hfb htr
      have heq := pbp_eq_falsyRate ref gw hfb htr
      rw [heq, hall]
      refine ⟨⟨?_, ?_⟩, ?_⟩
      · rintro ⟨pm, hp, -, -⟩
        exact absurd hp (hne pm)
      · rintro ⟨hcontra, -⟩
        cases hcontra
      · exact fun msg _ => ⟨rfl, fun hcontra => by cases hcontra⟩
    | true =>
      cases hfp : findBlockingPaymentOf st bid with
      | some pex =>
        have hall := allowed_eq_duplicate hfb hfp
        have heq := pbp_eq_duplicate ref gw hfb htr hfp
        rw [heq, hall]
        refine ⟨⟨?_, ?_⟩, ?_⟩
        · rintro ⟨pm, hp, -, -⟩
          exact absurd hp (hne pm)
        · rintro ⟨hcontra, -⟩
          cases hcontra
        · exact fun msg _ => ⟨rfl, fun hcontra => by cases hcontra⟩
      | none =>
        have hall := allowed_eq_clear hfb htr hfp
        cases gw with
        | rejected msg =>
          have heq := pbp_eq_rejected ref msg hfb htr hfp
          rw [heq, hall]
          refine ⟨⟨?_, ?_⟩, ?_⟩
          · rintro ⟨pm, hp, -, -⟩
            exact absurd hp (hne pm)
          · rintro ⟨-, url, ac, hcontra⟩
            cases hcontra
          · intro msg' hgw
            injection hgw with hmsg
            subst hmsg
            exact ⟨rfl, fun _ => rfl⟩
        | accepted url ac =>
          have heq := pbp_eq_accepted ref url ac hfb htr hfp
          rw [heq, hall]
          refine ⟨⟨?_, ?_⟩, ?_⟩
          · exact fun _ => ⟨rfl, url, ac, rfl⟩
          · exact fun _ =>
              ⟨newBookingPayment st u bid (booking.agreedRate.getD 0) ref ac,
                rfl, rfl, rfl⟩
          · intro msg hgw
            cases hgw

/-- Store with an ACCEPTED booking whose `agreedRate` is `some 0`: non-null,
so the claim's precondition is met, but falsy for the code. -/
def wStore4 : Store :=
  { users := []
    profiles := []
    bookings := [{ id := 1, clientId := 10, musicianId := 2, eventName := "gig",
                   offeredRate := 0, agreedRate := some 0,
                   status := BookingStatus.ACCEPTED }]
    payments := []
    subscriptions := []
    reviews := []
    notifications := []
    nextBookingId := 2
    nextPaymentId := 0 }

/-- C4 counterexample: every condition of the claim holds — the booking
exists, belongs to the caller, is ACCEPTED, `agreedRate` is non-null
(`some 0`), no prior payment exists, and the gateway accepts — yet no Payment
row is created and an error is returned: the code requires a *truthy*
agreed rate, so a zero (non-null) rate is rejected. -/
theorem processBookingPayment_nonnull_counterexample :
    (findAcceptedBookingOf wStore4 10 1).any (fun b => b.agreedRate.isSome) = true ∧
    wStore4.payments = [] ∧
    processBookingPayment wStore4 10 1 "R" (GatewayInit.accepted "u" "a") =
      (.error (BAD_REQUEST, "Booking does not have an agreed rate."), wStore4) :=
  ⟨by decide, rfl, rfl⟩

/-- Store with an ACCEPTED booking carrying a truthy agreed rate and no
payments, used by the C4 witness. -/
def wStore4b : Store :=
  { users := []
    profiles := []
    bookings := [{ id := 1, clientId := 10, musicianId := 2, eventName := "gig",
                   offeredRate := 100, agreedRate := some 100,
                   status := BookingStatus.ACCEPTED }]
    payments := []
    subscriptions := []
    reviews := []
    notifications := []
    nextBookingId := 2
    nextPaymentId := 0 }

theorem processBookingPayment_spec_witness :
    (processBookingPayment wStore4b 10 1 "R" (GatewayInit.rejected "nope")).2 =
      wStore4b ∧
    (processBookingPayment wStore4b 10 1 "R" (GatewayInit.rejected "nope")).1 =
      .error (BAD_REQUEST, jsOrStr "nope" "Failed to initialize payment") := by
  have h := (processBookingPayment_spec wStore4b 10 1 "R"
    (GatewayInit.rejected "nope")).2 "nope" rfl
  exact ⟨h.1, h.2 (by decide)⟩

/-! ## C3: precondition failures -/

/-- C3 (amended): when the precondition on current status, party identity, or
ownership is not met, the four transition operations (accept, reject, cancel,
complete) return the NotFound-class error — indistinguishable for a missing
booking and one in the wrong state or with the wrong owner — and leave the
store (hence the booking's status and `agreedRate`) unchanged; `createBooking`
however answers a role/availability precondition failure with a
BadRequest-class error (also writing nothing). -/
theorem booking_precondition_not_found (st : Store) (u i mId c : Nat)
    (r : Option ℚ) (en : String) (offered : ℚ) :
    ((∀ b ∈ st.bookings,
        ¬(b.id = i ∧ b.musicianId = u ∧ b.status = BookingStatus.PENDING)) →
      acceptBooking st u i r =
        (.error (NOT_FOUND, "Booking not found or already processed."), st))
    ∧ ((∀ b ∈ st.bookings,
        ¬(b.id = i ∧ b.musicianId = u ∧ b.status = BookingStatus.PENDING)) →
      rejectBooking st u i =
        (.error (NOT_FOUND, "Booking not found or already processed."), st))
    ∧ ((∀ b ∈ st.bookings,
        ¬(b.id = i ∧ (b.clientId = u ∨ b.musicianId = u) ∧
          (b.status = BookingStatus.PENDING ∨ b.status = BookingStatus.ACCEPTED))) →
      cancelBooking st u i =
        (.error (NOT_FOUND, "Booking not found or cannot be cancelled."), st))
    ∧ ((∀ b ∈ st.bookings,
        ¬(b.id = i ∧ (b.clientId = u ∨ b.musicianId = u) ∧
          b.status = BookingStatus.ACCEPTED)) →
      completeBooking st u i =
        (.error (NOT_FOUND, "Booking not found or cannot be completed."), st))
    ∧ ((∀ usr ∈ st.users, ¬(usr.id = mId ∧ usr.role = Role.MUSICIAN)) →
      createBooking st c mId en offered =
        (.error (BAD_REQUEST, "Invalid musician ID."), st))
    ∧ ((∃ usr ∈ st.users, usr.id = mId) →
      (∀ usr ∈ st.users, usr.id = mId → usr.role = Role.MUSICIAN) →
      (∀ p ∈ st.profiles, p.userId = mId → p.isAvailable = false) →
      createBooking st c mId en offered =
        (.error (BAD_REQUEST, "Musician is not available."), st)) := by
  refine ⟨?_, ?_, ?_, ?_, ?_, ?_⟩
  · intro h
    have hnone : st.bookings.find? (fun b =>
        b.id == i && b.musicianId == u &&
          decide (b.status = BookingStatus.PENDING)) = none := by
      rw [List.find?_eq_none]
      intro b hb
      simp only [Bool.and_eq_true, beq_iff_eq, decide_eq_true_eq]
      intro hx
      exact h b hb ⟨hx.1.1, hx.1.2, hx.2⟩
    simp [acceptBooking, hnone]
  · intro h
    have hnone : st.bookings.find? (fun b =>
        b.id == i && b.musicianId == u &&
          decide (b.status = BookingStatus.PENDING)) = none := by
      rw [List.find?_eq_none]
      intro b hb
      simp only [Bool.and_eq_true, beq_iff_eq, decide_eq_true_eq]
      intro hx
      exact h b hb ⟨hx.1.1, hx.1.2, hx.2⟩
    simp [rejectBooking, hnone]
  · intro h
    have hnone : st.bookings.find? (fun b =>
        b.id == i && (b.clientId == u || b.musicianId == u) &&
          (decide (b.status = BookingStatus.PENDING) ||
           decide (b.status = BookingStatus.ACCEPTED))) = none := by
      rw [List.find?_eq_none]
      intro b hb
      simp only [Bool.and_eq_true, Bool.or_eq_true, beq_iff_eq,
        decide_eq_true_eq]
      intro hx
      exact h b hb ⟨hx.1.1, hx.1.2, hx.2⟩
    simp [cancelBooking, hnone]
  · intro h
    have hnone : st.bookings.find? (fun b =>
        b.id == i && (b.clientId == u || b.musicianId == u) &&
          decide (b.status = BookingStatus.ACCEPTED)) = none := by
      rw [List.find?_eq_none]
      intro b hb
      simp only [Bool.and_eq_true, Bool.or_eq_true, beq_iff_eq,
        decide_eq_true_eq]
      intro hx
      exact h b hb ⟨hx.1.1, hx.1.2, hx.2⟩
    simp [completeBooking, hnone]
  · intro h
    cases hfu : st.users.find? (fun usr => usr.id == mId) with
    | none => simp [createBooking, hfu]
    | some musician =>
      have hmem := List.mem_of_find?_eq_some hfu
      have hid : musician.id = mId := by
        simpa using List.find?_some hfu
      have hrole : ¬ musician.role = Role.MUSICIAN :=
        fun hr => h musician hmem ⟨hid, hr⟩
      simp [createBooking, hfu, hrole]
  · rintro ⟨usr, husr, huid⟩ hrole hav
    cases hfu : st.users.find? (fun x => x.id == mId) with
    | none =>
      rw [List.find?_eq_none] at hfu
      exact absurd (by simp [huid]) (hfu usr husr)
    | some musician =>
      have hmid : musician.id = mId := by
        simpa using List.find?_some hfu
      have hm : musician.role = Role.MUSICIAN :=
        hrole musician (List.mem_of_find?_eq_some hfu) hmid
      cases hfp : st.profiles.find? (fun p => p.userId == mId) with
      | none => simp [createBooking, hfu, hm, hfp]
      | some profile =>
        have hpid : profile.userId = mId := by
          simpa using List.find?_some hfp
        have hpav : profile.isAvailable = false :=
          hav profile (List.mem_of_find?_eq_some hfp) hpid
        simp [createBooking, hfu, hm, hfp, hpav]

/-- Store with a MUSICIAN-role user whose profile is marked unavailable. -/
def wStore3b : Store :=
  { users := [{ id := 2, role := Role.MUSICIAN }]
    profiles := [{ id := 7, userId := 2, isAvailable := false, totalGigs := 0,
                   averageRating := 0 }]
    bookings := []
    payments := []
    subscriptions := []
    reviews := []
    notifications := []
    nextBookingId := 0
    nextPaymentId := 0 }

theorem booking_precondition_not_found_witness :
    acceptBooking wStore4b 2 1 none =
      (.error (NOT_FOUND, "Booking not found or already processed."),
        wStore4b) ∧
    createBooking wStore3b 1 2 "x" 0 =
      (.error (BAD_REQUEST, "Musician is not available."), wStore3b) :=
  ⟨(booking_precondition_not_found wStore4b 2 1 99 1 none "x" 0).1 (by decide),
   (booking_precondition_not_found wStore3b 2 0 2 1 none "x" 0).2.2.2.2.2
     (by decide) (by decide) (by decide)⟩

/-- Store with a single CLIENT-role user, target of an invalid create. -/
def wStore3 : Store :=
  { users := [{ id := 2, role := Role.CLIENT }]
    profiles := []
    bookings := []
    payments := []
    subscriptions := []
    reviews := []
    notifications := []
    nextBookingId := 0
    nextPaymentId := 0 }

/-- C3 counterexample: `createBooking` answers a failed role precondition
(target user exists but is not a MUSICIAN) with HTTP 400 Bad Request, not the
NotFound-class (404) error the claim asserts for all five operations. -/
theorem createBooking_role_error_counterexample :
    createBooking wStore3 1 2 "party" 100 =
      (.error (BAD_REQUEST, "Invalid musician ID."), wStore3) ∧
    BAD_REQUEST ≠ NOT_FOUND :=
  ⟨rfl, by decide⟩

/-! ## C6: totalGigs increments -/

/-- `totalGigs` of the musician profile attached to user `m`. -/
def totalGigsOf (st : Store) (m : Nat) : Option Nat :=
  (st.profiles.find? (fun p => p.userId == m)).map MusicianProfile.totalGigs

/-- When every match of a predicate is a given row, `find?` returns it. -/
theorem find?_eq_some_of_unique {α : Type} {p : α → Bool} {l : List α} {a : α}
    (ha : a ∈ l) (hpa : p a = true)
    (huniq : ∀ x ∈ l, p x = true → x = a) :
    l.find? p = some a := by
  cases hf : l.find? p with
  | none =>
    rw [List.find?_eq_none] at hf
    exact absurd hpa (hf a ha)
  | some x =>
    rw [huniq x (List.mem_of_find?_eq_some hf) (List.find?_some hf)]

/-- C6: completing an ACCEPTED booking as one of its parties increments the
musician's `totalGigs` by exactly one; a failed complete writes nothing, and
none of the other four lifecycle operations ever touches the profiles
table. -/
theorem completeBooking_totalGigs (st : Store) (hwf : WF st) (u i : Nat)
    (b : Booking) (hb : st.bookings.find? (fun x => x.id == i) = some b)
    (pr : MusicianProfile)
    (hp : st.profiles.find? (fun p => p.userId == b.musicianId) = some pr) :
    (b.status = BookingStatus.ACCEPTED → (b.clientId = u ∨ b.musicianId = u) →
      totalGigsOf (completeBooking st u i).2 b.musicianId =
        some (pr.totalGigs + 1))
    ∧ (¬(b.status = BookingStatus.ACCEPTED ∧ (b.clientId = u ∨ b.musicianId = u)) →
      (completeBooking st u i).2 = st)
    ∧ (∀ op : BookingOp, (∀ u' i', op ≠ BookingOp.complete u' i') →
      (runOp st op).profiles = st.profiles) := by
  have hbmem : b ∈ st.bookings := List.mem_of_find?_eq_some hb
  have hbid : b.id = i := by
    simpa using List.find?_some hb
  refine ⟨?_, ?_, ?_⟩
  · intro hacc hparty
    have hfull : st.bookings.find? (fun x =>
        x.id == i && (x.clientId == u || x.musicianId == u) &&
          decide (x.status = BookingStatus.ACCEPTED)) = some b := by
      apply find?_eq_some_of_unique hbmem
      · simp only [Bool.and_eq_true, Bool.or_eq_true, beq_iff_eq,
          decide_eq_true_eq]
        refine ⟨⟨hbid, ?_⟩, hacc⟩
        rcases hparty with hc | hm
        · exact Or.inl hc
        · exact Or.inr hm
      · intro x hx hpx
        simp only [Bool.and_eq_true, Bool.or_eq_true, beq_iff_eq,
          decide_eq_true_eq] at hpx
        exact booking_eq_of_id_eq hwf.1 hx hbmem (by rw [hpx.1.1, hbid])
    have hprof : (completeBooking st u i).2.profiles =
        st.profiles.map (fun p =>
          if p.userId == b.musicianId then { p with totalGigs := p.totalGigs + 1 }
          else p) := by
      simp [completeBooking, hfull]
    unfold totalGigsOf
    rw [hprof,
      find?_map_update MusicianProfile.userId hp
        (fun p => { p with totalGigs := p.totalGigs + 1 }) (fun p => rfl)]
    rfl
  · intro hfail
    have hnone : st.bookings.find? (fun x =>
        x.id == i && (x.clientId == u || x.musicianId == u) &&
          decide (x.status = BookingStatus.ACCEPTED)) = none := by
      rw [List.find?_eq_none]
      intro x hx
      simp only [Bool.and_eq_true, Bool.or_eq_true, beq_iff_eq,
        decide_eq_true_eq]
      intro hpx
      have hxb : x = b :=
        booking_eq_of_id_eq hwf.1 hx hbmem (by rw [hpx.1.1, hbid])
      subst hxb
      exact hfail ⟨hpx.2, hpx.1.2⟩
    simp [completeBooking, hnone]
  · intro op hne
    cases op with
    | create c m en r =>
      show (createBooking st c m en r).2.profiles = st.profiles
      unfold createBooking
      repeat' split
      all_goals rfl
    | accept u' i' r =>
      show (acceptBooking st u' i' r).2.profiles = st.profiles
      unfold acceptBooking
      split
      all_goals rfl
    | reject u' i' =>
      show (rejectBooking st u' i').2.profiles = st.profiles
      unfold rejectBooking
      split
      all_goals rfl
    | cancel u' i' =>
      show (cancelBooking st u' i').2.profiles = st.profiles
      unfold cancelBooking
      split
      all_goals rfl
    | complete u' i' =>
      exact absurd rfl (hne u' i')

/-- Store with an ACCEPTED booking (client 1, musician 2) and the musician's
profile at 0 completed gigs, for the C6 witness. -/
def wStore6 : Store :=
  { users := [{ id := 1, role := Role.CLIENT }, { id := 2, role := Role.MUSICIAN }]
    profiles := [{ id := 7, userId := 2, isAvailable := true, totalGigs := 0,
                   averageRating := 0 }]
    bookings := [{ id := 0, clientId := 1, musicianId := 2, eventName := "gig",
                   offeredRate := 100, agreedRate := some 100,
                   status := BookingStatus.ACCEPTED }]
    payments := []
    subscriptions := []
    reviews := []
    notifications := []
    nextBookingId := 1
    nextPaymentId := 0 }

theorem completeBooking_totalGigs_witness :
    totalGigsOf (completeBooking wStore6 1 0).2 2 = some 1 :=
  (completeBooking_totalGigs wStore6 ⟨by decide, by decide⟩ 1 0
      (wStore6.bookings.get ⟨0, by decide⟩) (by decide)
      (wStore6.profiles.get ⟨0, by decide⟩) (by decide)).1
    (by decide) (Or.inl (by decide))

/-! ## C9: falsy agreedRate override -/

/-- C9: accepting with a falsy override (`null`/omitted or `0`) stores the
client's `offeredRate` as the agreed rate, and an accepted booking's stored
agreed rate can only be `0` when `offeredRate` itself is `0`. -/
theorem acceptBooking_zero_override (st : Store) (hwf : WF st) (u i : Nat)
    (r : Option ℚ) (b : Booking)
    (hfind : st.bookings.find? (fun x =>
        x.id == i && x.musicianId == u &&
          decide (x.status = BookingStatus.PENDING)) = some b) :
    ((acceptBooking st u i r).2.bookings.find? (fun x => x.id == i)).map
        Booking.agreedRate = some (some (jsOr r b.offeredRate)) ∧
    ((r = none ∨ r = some 0) → jsOr r b.offeredRate = b.offeredRate) ∧
    (jsOr r b.offeredRate = 0 → b.offeredRate = 0) := by
  have hbmem : b ∈ st.bookings := List.mem_of_find?_eq_some hfind
  have hbid : b.id = i := by
    have := List.find?_some hfind
    simp only [Bool.and_eq_true, beq_iff_eq, decide_eq_true_eq] at this
    exact this.1.1
  refine ⟨?_, ?_, ?_⟩
  · have hbooks : (acceptBooking st u i r).2.bookings =
        updateBookingById st.bookings i (fun x =>
          { x with
              status := BookingStatus.ACCEPTED
              agreedRate := some (jsOr r b.offeredRate) }) := by
      simp [acceptBooking, hfind]
    have hbyid : st.bookings.find? (fun x => x.id == i) = some b :=
      find?_eq_of_key_nodup Booking.id hwf.1 hbmem hbid
    rw [hbooks]
    unfold updateBookingById
    rw [find?_map_update Booking.id hbyid (fun x =>
      { x with
          status := BookingStatus.ACCEPTED
          agreedRate := some (jsOr r b.offeredRate) }) (fun x => rfl)]
    rfl
  · rintro (hr | hr) <;> subst hr <;> simp [jsOr]
  · intro h0
    cases r with
    | none => exact h0
    | some x =>
      by_cases hx : x = 0
      · rw [← h0]
        simp [jsOr, hx]
      · rw [jsOr, if_neg hx] at h0
        exact absurd h0 hx

theorem acceptBooking_zero_override_witness :
    ((acceptBooking wStore1 2 0 (some 0)).2.bookings.find?
        (fun x => x.id == 0)).map Booking.agreedRate =
      some (some (jsOr (some 0) 100)) ∧
    ((some (0:ℚ) = none ∨ some (0:ℚ) = some 0) →
      jsOr (some 0) 100 = (100:ℚ)) ∧
    (jsOr (some 0) (100:ℚ) = 0 → (100:ℚ) = 0) :=
  acceptBooking_zero_override wStore1 ⟨by decide, by decide⟩ 2 0 (some 0)
    (wStore1.bookings.get ⟨0, by decide⟩) (by decide)

/-! ## C7: subscription renewal -/

/-- C7: renewing an existing subscription resets its status to ACTIVE and
sets the new `endDate` to `durationMonths` months past
`max(now, currentEndDate)` — appending to the window when renewed before
expiry, restarting from `now` when renewed after. `addMonths` stands for
JavaScript's `Date.setMonth` month addition. -/
theorem renewSubscription_extends (st : Store) (u : Nat) (payId : Option Nat)
    (d : Nat) (now : Int) (addMonths : Int → Nat → Int)
    (profile : MusicianProfile) (sub : Subscription)
    (hnd : (st.subscriptions.map Subscription.id).Nodup)
    (hp : st.profiles.find? (fun p => p.userId == u) = some profile)
    (hs : st.subscriptions.find? (fun s => s.musicianProfileId == profile.id) =
      some sub) :
    (renewSubscription st u payId d now addMonths).1 =
      .ok { sub with
              status := SubStatus.ACTIVE
              startDate := max now sub.endDate
              endDate := addMonths (max now sub.endDate) d
              paymentId := payId } ∧
    (renewSubscription st u payId d now addMonths).2.subscriptions.find?
        (fun s => s.id == sub.id) =
      some { sub with
               status := SubStatus.ACTIVE
               startDate := max now sub.endDate
               endDate := addMonths (max now sub.endDate) d
               paymentId := payId } ∧
    (now < sub.endDate → max now sub.endDate = sub.endDate) ∧
    (sub.endDate ≤ now → max now sub.endDate = now) := by
  have hmax : (if sub.endDate > now then sub.endDate else now) =
      max now sub.endDate := by
    rcases lt_or_le now sub.endDate with hlt | hle
    · rw [if_pos hlt, max_eq_right (le_of_lt hlt)]
    · rw [if_neg (not_lt.mpr hle), max_eq_left hle]
  refine ⟨?_, ?_, fun h => max_eq_right (le_of_lt h),
    fun h => max_eq_left h⟩
  · have hresp : (renewSubscription st u payId d now addMonths).1 =
        .ok { sub with
                status := SubStatus.ACTIVE
                startDate := if sub.endDate > now then sub.endDate else now
                endDate := addMonths
                  (if sub.endDate > now then sub.endDate else now) d
                paymentId := payId } := by
      simp [renewSubscription, hp, hs]
    rw [hresp, hmax]
  · have hsubs : (renewSubscription st u payId d now addMonths).2.subscriptions =
        st.subscriptions.map (fun s =>
          if s.id == sub.id then
            { s with
                status := SubStatus.ACTIVE
                startDate := if sub.endDate > now then sub.endDate else now
                endDate := addMonths
                  (if sub.endDate > now then sub.endDate else now) d
                paymentId := payId }
          else s) := by
      simp [renewSubscription, hp, hs]
    have hbyid : st.subscriptions.find? (fun s => s.id == sub.id) = some sub :=
      find?_eq_of_key_nodup Subscription.id hnd
        (List.mem_of_find?_eq_some hs) rfl
    rw [hsubs,
      find?_map_update Subscription.id hbyid (fun s =>
        { s with
            status := SubStatus.ACTIVE
            startDate := if sub.endDate > now then sub.endDate else now
            endDate := addMonths
              (if sub.endDate > now then sub.endDate else now) d
            paymentId := payId }) (fun s => rfl), hmax]

/-- Profile and expired subscription used by the C7 witness. -/
def wSub7 : Subscription :=
  { id := 3, musicianProfileId := 7, status := SubStatus.EXPIRED,
    startDate := 0, endDate := 10, paymentId := none }

def wStore7 : Store :=
  { users := [{ id := 2, role := Role.MUSICIAN }]
    profiles := [{ id := 7, userId := 2, isAvailable := true, totalGigs := 0,
                   averageRating := 0 }]
    bookings := []
    payments := []
    subscriptions := [wSub7]
    reviews := []
    notifications := []
    nextBookingId := 0
    nextPaymentId := 0 }

/-- A concrete stand-in for JavaScript month addition, for the witness. -/
def wAddMonths (t : Int) (m : Nat) : Int := t + 30 * m

theorem renewSubscription_extends_witness :
    (renewSubscription wStore7 2 (some 9) 1 5 wAddMonths).1 =
      .ok { wSub7 with
              status := SubStatus.ACTIVE
              startDate := max 5 wSub7.endDate
              endDate := wAddMonths (max 5 wSub7.endDate) 1
              paymentId := some 9 } ∧
    (renewSubscription wStore7 2 (some 9) 1 5 wAddMonths).2.subscriptions.find?
        (fun s => s.id == wSub7.id) =
      some { wSub7 with
               status := SubStatus.ACTIVE
               startDate := max 5 wSub7.endDate
               endDate := wAddMonths (max 5 wSub7.endDate) 1
               paymentId := some 9 } ∧
    ((5:Int) < wSub7.endDate → max 5 wSub7.endDate = wSub7.endDate) ∧
    (wSub7.endDate ≤ (5:Int) → max 5 wSub7.endDate = 5) :=
  renewSubscription_extends wStore7 2 (some 9) 1 5 wAddMonths
    (wStore7.profiles.get ⟨0, by decide⟩) wSub7 (by decide) (by decide)
    (by decide)

/-! ## C8: review deletion recomputes the mean -/

/-- Two list filters commute. -/
theorem filter_swap {α : Type} (p q : α → Bool) (l : List α) :
    (l.filter q).filter p = (l.filter p).filter q := by
  rw [List.filter_filter, List.filter_filter]
  apply List.filter_congr
  intro a _
  exact Bool.and_comm (p a) (q a)

/-- C8: when an author deletes their review, the target musician's
`averageRating` becomes the exact arithmetic mean of the remaining reviews
for that musician — and 0 when the deleted review was the only one. -/
theorem deleteReview_recomputes (st : Store) (u i : Nat) (rv : Review)
    (bk : Booking) (pr : MusicianProfile)
    (hr : st.reviews.find? (fun x => x.id == i && x.reviewerId == u) = some rv)
    (hbk : st.bookings.find? (fun b => b.id == rv.bookingId) = some bk)
    (hp : st.profiles.find? (fun p => p.userId == bk.musicianId) = some pr) :
    (deleteReview st u i).2.reviews =
      st.reviews.filter (fun x => x.id != i) ∧
    (deleteReview st u i).2.profiles.find? (fun p => p.userId == bk.musicianId) =
      some { pr with averageRating :=
        if 0 < ((reviewsForMusician st.bookings st.reviews bk.musicianId).filter
            (fun x => x.id != i)).length then
          (((reviewsForMusician st.bookings st.reviews bk.musicianId).filter
              (fun x => x.id != i)).map (fun x => (x.rating : ℚ))).sum /
            ((((reviewsForMusician st.bookings st.reviews bk.musicianId).filter
              (fun x => x.id != i)).length : ℚ))
        else 0 } ∧
    (reviewsForMusician st.bookings st.reviews bk.musicianId = [rv] →
      (deleteReview st u i).2.profiles.find?
          (fun p => p.userId == bk.musicianId) =
        some { pr with averageRating := 0 }) := by
  have hcomm : reviewsForMusician st.bookings
      (st.reviews.filter (fun x => x.id != i)) bk.musicianId =
      (reviewsForMusician st.bookings st.reviews bk.musicianId).filter
        (fun x => x.id != i) := by
    unfold reviewsForMusician
    exact filter_swap _ _ st.reviews
  have hrid : rv.id = i := by
    have := List.find?_some hr
    simp only [Bool.and_eq_true, beq_iff_eq] at this
    exact this.1
  have hrev : (deleteReview st u i).2.reviews =
      st.reviews.filter (fun x => x.id != i) := by
    simp [deleteReview, hr, hbk]
  have hprofs : (deleteReview st u i).2.profiles.find?
      (fun p => p.userId == bk.musicianId) =
      some { pr with averageRating :=
        if 0 < ((reviewsForMusician st.bookings st.reviews bk.musicianId).filter
            (fun x => x.id != i)).length then
          (((reviewsForMusician st.bookings st.reviews bk.musicianId).filter
              (fun x => x.id != i)).map (fun x => (x.rating : ℚ))).sum /
            ((((reviewsForMusician st.bookings st.reviews bk.musicianId).filter
              (fun x => x.id != i)).length : ℚ))
        else 0 } := by
    have hpm : (deleteReview st u i).2.profiles =
        st.profiles.map (fun p =>
          if p.userId == bk.musicianId then
            { p with averageRating :=
              if 0 < (reviewsForMusician st.bookings
                  (st.reviews.filter (fun x => x.id != i)) bk.musicianId).length
              then
                ((reviewsForMusician st.bookings
                    (st.reviews.filter (fun x => x.id != i))
                    bk.musicianId).map (fun x => (x.rating : ℚ))).sum /
                  (((reviewsForMusician st.bookings
                    (st.reviews.filter (fun x => x.id != i))
                    bk.musicianId).length : ℚ))
              else 0 }
          else p) := by
      simp [deleteReview, hr, hbk]
    rw [hpm, hcomm,
      find?_map_update MusicianProfile.userId hp (fun p =>
        { p with averageRating :=
          if 0 < ((reviewsForMusician st.bookings st.reviews
              bk.musicianId).filter (fun x => x.id != i)).length then
            (((reviewsForMusician st.bookings st.reviews bk.musicianId).filter
                (fun x => x.id != i)).map (fun x => (x.rating : ℚ))).sum /
              ((((reviewsForMusician st.bookings st.reviews
                bk.musicianId).filter (fun x => x.id != i)).length : ℚ))
          else 0 }) (fun p => rfl)]
  refine ⟨hrev, hprofs, ?_⟩
  intro honly
  rw [hprofs, honly]
  have : ([rv].filter (fun x => x.id != i)) = [] := by
    simp [List.filter, hrid]
  rw [this]
  rfl

/-- Booking, review, and profile rows used by the C8 witness: musician 2 has
exactly one review (rating 5) on completed booking 0. -/
def wBooking8 : Booking :=
  { id := 0, clientId := 1, musicianId := 2, eventName := "gig",
    offeredRate := 100, agreedRate := some 100,
    status := BookingStatus.COMPLETED }

def wReview8 : Review :=
  { id := 4, bookingId := 0, reviewerId := 1, rating := 5 }

def wProfile8 : MusicianProfile :=
  { id := 7, userId := 2, isAvailable := true, totalGigs := 1,
    averageRating := 5 }

def wStore8 : Store :=
  { users := [{ id := 1, role := Role.CLIENT }, { id := 2, role := Role.MUSICIAN }]
    profiles := [wProfile8]
    bookings := [wBooking8]
    payments := []
    subscriptions := []
    reviews := [wReview8]
    notifications := []
    nextBookingId := 1
    nextPaymentId := 0 }

theorem deleteReview_recomputes_witness :
    (deleteReview wStore8 1 4).2.profiles.find? (fun p => p.userId == 2) =
      some { wProfile8 with averageRating := 0 } :=
  (deleteReview_recomputes wStore8 1 4 wReview8 wBooking8 wProfile8
      (by decide) (by decide) (by decide)).2.2 (by decide)

end SteadyGig
